import Mathlib

set_option linter.unusedVariables false

/-!
Verification development for the WhatsApp-call bridge server (`src/server.js`).

The server is embedded shallowly: the mutable module-level globals become an
explicit `SessionState` record, network and media-engine outcomes become
oracle inputs (`BridgeEnv`, `HttpOutcome`), and the observable side effects
(socket emissions, provider REST actions, timers) become an explicit event
trace (`Ev`).  Each definition mirrors one function of `server.js`.
-/

namespace WpCall

/-! ### JS `String.replace` with a string pattern (replaces the FIRST occurrence)

`server.js` line 435:
`const finalWaSdp = waAnswer.sdp.replace("a=setup:actpass", "a=setup:active");`
-/

/-- Replace the first (leftmost) occurrence of `pat` in the list by `rep`;
if `pat` does not occur, return the list unchanged.  This is the semantics of
JavaScript `String.prototype.replace` with a string (non-regexp) pattern. -/
def replaceFirst (pat rep : List Char) : List Char → List Char
  | [] => []
  | c :: t =>
    if pat <+: (c :: t) then rep ++ (c :: t).drop pat.length
    else c :: replaceFirst pat rep t

/-- String wrapper for `replaceFirst`: JS `s.replace(pat, rep)` for plain
string patterns. -/
def jsReplaceOne (pat rep s : String) : String :=
  String.mk (replaceFirst pat.data rep.data s.data)

/-- The SDP rewrite applied to the provider answer (`server.js` line 435). -/
def rewriteSetupActive (sdp : String) : String :=
  jsReplaceOne "a=setup:actpass" "a=setup:active" sdp

/-- If `pat` occurs in `s`, `replaceFirst` yields `s` with exactly one
occurrence of `pat` substituted by `rep` and every other element unchanged. -/
theorem replaceFirst_eq_of_occurs (pat rep : List Char) (hne : pat ≠ []) :
    ∀ s : List Char, (∃ p q, s = p ++ pat ++ q) →
      ∃ p q, s = p ++ pat ++ q ∧ replaceFirst pat rep s = p ++ rep ++ q := by
  intro s
  induction s with
  | nil =>
    rintro ⟨p, q, hpq⟩
    exfalso
    have := hpq.symm
    simp only [List.append_eq_nil] at this
    exact hne this.1.2
  | cons c t ih =>
    rintro ⟨p, q, hpq⟩
    by_cases hpre : pat <+: (c :: t)
    · obtain ⟨q', hq'⟩ := hpre
      refine ⟨[], q', ?_, ?_⟩
      · simp [← hq']
      · have hpre' : pat <+: (c :: t) := ⟨q', hq'⟩
        simp only [replaceFirst, if_pos hpre']
        rw [← hq', List.drop_left]
        simp
    · cases p with
      | nil =>
        exfalso
        apply hpre
        exact ⟨q, by simpa using hpq.symm⟩
      | cons c' p' =>
        have hc : c' = c ∧ p' ++ (pat ++ q) = t := by
          simpa using hpq.symm
        obtain ⟨p'', q'', ht, hrep⟩ :=
          ih ⟨p', q, by simp [← hc.2, List.append_assoc]⟩
        refine ⟨c :: p'', q'', ?_, ?_⟩
        · simp [ht]
        · simp only [replaceFirst, if_neg hpre]
          simp [hrep]

/-! ### Data model: the module-level session globals of `server.js` -/

/-- `outgoingCallState` (`server.js` lines 94-99). -/
structure OutgoingCallState where
  phoneNumber : Option String
  callerName : Option String
  callId : Option String
  status : String
deriving Repr, DecidableEq

/-- The initial / reset value of `outgoingCallState`. -/
def initialOutgoingCallState : OutgoingCallState :=
  { phoneNumber := none, callerName := none, callId := none, status := "idle" }

/-- The module-level mutable session globals (`server.js` lines 83-99).
Peer/stream handles are tracked as presence booleans; `browserSocket` as a
presence boolean. -/
structure SessionState where
  browserPc : Bool
  browserStream : Bool
  whatsappPc : Bool
  whatsappStream : Bool
  browserOfferSdp : Option String
  whatsappOfferSdp : Option String
  browserSocket : Bool
  currentCallId : Option String
  isOutgoingCall : Bool
  outgoingCallState : OutgoingCallState
deriving Repr, DecidableEq

/-- `resetOutgoingCallState()` (`server.js` lines 104-113): resets exactly
`isOutgoingCall` and the four fields of `outgoingCallState`, nothing else. -/
def resetOutgoingCallState (s : SessionState) : SessionState :=
  { s with isOutgoingCall := false, outgoingCallState := initialOutgoingCallState }

/-- The outbound-call portion of the session state: the pair the webhook
transition claims are about. -/
def outboundOf (s : SessionState) : Bool × OutgoingCallState :=
  (s.isOutgoingCall, s.outgoingCallState)

/-! ### Observable side effects -/

/-- Observable actions of the bridge and the webhook handler: socket
emissions to the browser, REST actions to the provider, and the scheduled
delay. -/
inductive Ev
  | emitBrowserAnswer (sdp : String)
  | apiPreAccept (callId : Option String) (sdp : String)
  | delayMs (n : Nat)
  | apiAccept (callId : Option String) (sdp : String)
  | emitStartBrowserTimer
  | emitOutgoingCallConnected (callId : String) (phoneNumber : String) (callerName : String)
  | emitCallIsComing (callId : String) (callerName : String) (callerNumber : String)
  | emitCallEnded
  | emitOutgoingCallRejected (callId : Option String) (phoneNumber : Option String)
  | emitOutgoingCallTimeout (callId : Option String) (phoneNumber : Option String)
  | apiReject (callId : Option String)
  | apiTerminate (callId : Option String)
deriving Repr, DecidableEq

/-! ### The bridge (`initiateWebRTCBridge`, `server.js` lines 370-455)

Engine and network outcomes are oracle inputs: the engine-produced answer
SDPs, whether the provider's first audio track arrives within the 10-second
timeout, and the boolean results of the `pre_accept` and `accept` REST
calls (`answerCallToWhatsApp` returns a bare boolean). -/

/-- Oracle inputs consumed by one bridge attempt. -/
structure BridgeEnv where
  browserAnswerSdp : String
  waAnswerSdp : String
  waTrackArrives : Bool
  preAcceptOk : Bool
  acceptOk : Bool
deriving Repr, DecidableEq

/-- `initiateWebRTCBridge()` as a state-and-trace transformer.  The third
component is the thrown rejection (`some msg`) when the wait for the
provider's first audio track times out after 10 seconds; `none` means the
async function ran to completion.  Trace order mirrors source order: the
browser answer is emitted, then `pre_accept` is sent; only on its success is
`accept` scheduled behind a 1000 ms delay, and `start-browser-timer` is
emitted only when `accept` succeeds and the browser socket is still bound.
The two offer fields are cleared whenever execution reaches the tail of the
function (lines 453-454), i.e. on both the success and the pre-accept
failure path; a track timeout throws before reaching them. -/
def initiateWebRTCBridge (env : BridgeEnv) (s : SessionState) :
    SessionState × List Ev × Option String :=
  if s.browserOfferSdp = none ∨ s.whatsappOfferSdp = none ∨ s.browserSocket = false then
    (s, [], none)
  else if env.waTrackArrives = false then
    ({ s with browserPc := true, browserStream := true, whatsappPc := true },
     [], some "Timed out waiting for WhatsApp track")
  else
    ({ s with
        browserPc := true
        browserStream := true
        whatsappPc := true
        whatsappStream := true
        browserOfferSdp := none
        whatsappOfferSdp := none },
     Ev.emitBrowserAnswer env.browserAnswerSdp ::
       Ev.apiPreAccept s.currentCallId (rewriteSetupActive env.waAnswerSdp) ::
       (if env.preAcceptOk = true then
          Ev.delayMs 1000 ::
            Ev.apiAccept s.currentCallId (rewriteSetupActive env.waAnswerSdp) ::
            (if env.acceptOk = true ∧ s.browserSocket = true then
              [Ev.emitStartBrowserTimer] else [])
        else []),
     none)

/-! ### Webhook POST handler (`app.post("/webhook")`, `server.js` lines 243-324) -/

/-- The call-event fields extracted from a webhook POST body (`call.id`,
`call.event`, `call.session?.sdp`, `contact.profile?.name`,
`contact?.wa_id`); `none` models an absent field. -/
structure CallEvent where
  id : Option String
  event : Option String
  sdp : Option String
  contactName : Option String
  contactWaId : Option String
deriving Repr, DecidableEq

/-- `app.post("/webhook")` as a state-and-trace transformer; the `Nat` is
the HTTP status sent back.  A payload missing `id` or `event` is
acknowledged with 200 and changes nothing.  Otherwise `currentCallId` is
overwritten with the event's id before dispatching on the event type.  On
`connect` the provider SDP is stored and the bridge is attempted; a
rejection thrown inside the bridge (track timeout) is caught by the
handler's try/catch, which answers 500.  On `terminate`/`reject`/`timeout`
the outgoing-call record is reset only when the event's id matches the
active outbound call. -/
def handleWebhookPost (env : BridgeEnv) (p : CallEvent) (s : SessionState) :
    SessionState × List Ev × Nat :=
  match p.id, p.event with
  | some callId, some ev =>
    if ev = "connect" then
      if s.isOutgoingCall = true ∧ s.outgoingCallState.callId = some callId then
        let r := initiateWebRTCBridge env
          { s with
              currentCallId := some callId
              whatsappOfferSdp := p.sdp
              outgoingCallState := { s.outgoingCallState with status := "connected" } }
        (r.1,
         Ev.emitOutgoingCallConnected callId (p.contactWaId.getD "Unknown")
             (p.contactName.getD "Unknown") :: r.2.1,
         if r.2.2 = none then 200 else 500)
      else
        let r := initiateWebRTCBridge env
          { s with currentCallId := some callId, whatsappOfferSdp := p.sdp }
        (r.1,
         Ev.emitCallIsComing callId (p.contactName.getD "Unknown")
             (p.contactWaId.getD "Unknown") :: r.2.1,
         if r.2.2 = none then 200 else 500)
    else if ev = "terminate" then
      if s.isOutgoingCall = true ∧ s.outgoingCallState.callId = some callId then
        (resetOutgoingCallState { s with currentCallId := some callId },
         [Ev.emitCallEnded], 200)
      else
        ({ s with currentCallId := some callId }, [Ev.emitCallEnded], 200)
    else if ev = "reject" then
      if s.isOutgoingCall = true ∧ s.outgoingCallState.callId = some callId then
        (resetOutgoingCallState { s with currentCallId := some callId },
         [Ev.emitOutgoingCallRejected (some callId) s.outgoingCallState.phoneNumber], 200)
      else
        ({ s with currentCallId := some callId }, [], 200)
    else if ev = "timeout" then
      if s.isOutgoingCall = true ∧ s.outgoingCallState.callId = some callId then
        (resetOutgoingCallState { s with currentCallId := some callId },
         [Ev.emitOutgoingCallTimeout (some callId) s.outgoingCallState.phoneNumber], 200)
      else
        ({ s with currentCallId := some callId }, [], 200)
    else
      ({ s with currentCallId := some callId }, [], 200)
  | _, _ => (s, [], 200)

/-- Folding a sequence of webhook events through the handler (state only). -/
def runWebhooks (env : BridgeEnv) (ps : List CallEvent) (s : SessionState) : SessionState :=
  ps.foldl (fun st p => (handleWebhookPost env p st).1) s

/-! ### Browser socket handler for `reject-outbound-call`
(`io.on("connection")`, `server.js` lines 216-227) -/

/-- The `reject-outbound-call` socket handler: if an outbound call id is
recorded, send a provider `reject` action; then reset the outgoing-call
record; then emit `outgoing-call-rejected` whose payload reads
`outgoingCallState.callId` / `.phoneNumber` from the just-reset global. -/
def onRejectOutboundCall (s : SessionState) : SessionState × List Ev :=
  let apiEvs : List Ev :=
    match s.outgoingCallState.callId with
    | some cid => [Ev.apiReject (some cid)]
    | none => []
  let s' := resetOutgoingCallState s
  (s', apiEvs ++ [Ev.emitOutgoingCallRejected s'.outgoingCallState.callId
                    s'.outgoingCallState.phoneNumber])

/-! ### Provider REST client (`server.js` lines 460-621)

Each operation performs a single `axios.post`; its outcome is an oracle
input: either an HTTP-success response carrying a JSON body, or a thrown
exception (network/HTTP failure) optionally carrying a response body. -/

/-- The fields of a provider JSON response body this code reads:
`data.success`, `data.call_id`, and `data.error?.message`; `none` models an
absent field. -/
structure ApiData where
  success : Option Bool
  call_id : Option String
  errObjMessage : Option String
deriving Repr, DecidableEq

/-- Outcome of one `axios.post`: HTTP success with a body, or a thrown
exception with a message and an optional error-response body. -/
inductive HttpOutcome
  | ok (data : ApiData)
  | exn (message : String) (responseData : Option ApiData)
deriving Repr, DecidableEq

/-- Result record returned by `initiateWhatsAppCall`
(`{success, callId?, error?}`). -/
structure InitiateResult where
  success : Bool
  callId : Option String
  error : Option String
deriving Repr, DecidableEq

/-- `initiateWhatsAppCall(phoneNumber, sdp)` (`server.js` lines 460-519).
`now` models `Date.now()` for the generated fallback id. -/
def initiateWhatsAppCall (phoneNumber sdp : String) (now : Nat)
    (r : HttpOutcome) : InitiateResult :=
  match r with
  | .ok d =>
    if d.success = some true then
      { success := true
        callId := some (d.call_id.getD ("outgoing_" ++ toString now))
        error := none }
    else
      { success := false, callId := none
        error := some "WhatsApp API did not confirm call initiation" }
  | .exn _ rd =>
    { success := false, callId := none
      error := some ((rd.bind ApiData.errObjMessage).getD "Failed to connect to WhatsApp API") }

/-- `answerCallToWhatsApp(callId, sdp, action)` (`server.js` lines 524-553):
returns a bare boolean — `true` exactly when the response body has
`success === true`, `false` on any other shape or on an exception. -/
def answerCallToWhatsApp (callId : Option String) (sdp action : String)
    (r : HttpOutcome) : Bool :=
  match r with
  | .ok d => d.success = some true
  | .exn _ _ => false

/-- What `rejectCall`/`terminateCall` return: the raw `response.data` on any
HTTP-success response, or the `{success:false, error:message}` record built
in the catch block. -/
inductive ProviderCallResult
  | rawData (d : ApiData)
  | normalizedErr (message : String)
deriving Repr, DecidableEq

/-- Whether a `rejectCall`/`terminateCall` result is the normalized
`{success:false, error:<message>}` record. -/
def ProviderCallResult.isNormalizedErr : ProviderCallResult → Bool
  | .normalizedErr _ => true
  | .rawData _ => false

/-- `rejectCall(callId)` (`server.js` lines 559-587): returns `response.data`
unconditionally on HTTP success (even when `success` is absent or false);
only the catch block normalizes to `{success:false, error:message}`. -/
def rejectCall (callId : Option String) (r : HttpOutcome) : ProviderCallResult :=
  match r with
  | .ok d => .rawData d
  | .exn msg _ => .normalizedErr msg

/-- `terminateCall(callId)` (`server.js` lines 593-621): same shape as
`rejectCall` with action `terminate`. -/
def terminateCall (callId : Option String) (r : HttpOutcome) : ProviderCallResult :=
  match r with
  | .ok d => .rawData d
  | .exn msg _ => .normalizedErr msg

/-! ### The §4.4 outbound transition table, restricted to webhook events -/

/-- The condition under which a webhook event with id `i` targets the
active outbound session (`isOutgoingCall && outgoingCallState.callId ===
callId` in the source). -/
def matchesOutbound (s : SessionState) (i : String) : Prop :=
  s.isOutgoingCall = true ∧ s.outgoingCallState.callId = some i

instance (s : SessionState) (i : String) : Decidable (matchesOutbound s i) :=
  inferInstanceAs (Decidable (_ ∧ _))

/-- The outbound-state transitions §4.4 allows a webhook event to make:
either the outbound record is unchanged, or a matching `connect` moves
`ringing` to `connected` (touching nothing else in the record), or a
matching `terminate`/`reject`/`timeout` resets the whole record to idle. -/
def webhookOutboundStepOk (p : CallEvent) (s s' : SessionState) : Prop :=
  outboundOf s' = outboundOf s
  ∨ (∃ i, p.id = some i ∧ p.event = some "connect" ∧ matchesOutbound s i ∧
      s.outgoingCallState.status = "ringing" ∧ s'.isOutgoingCall = true ∧
      s'.outgoingCallState = { s.outgoingCallState with status := "connected" })
  ∨ (∃ i, p.id = some i ∧
      (p.event = some "terminate" ∨ p.event = some "reject" ∨
        p.event = some "timeout") ∧
      matchesOutbound s i ∧
      s'.isOutgoingCall = false ∧ s'.outgoingCallState = initialOutgoingCallState)

/-! ### Sample inputs used by witnesses and counterexamples -/

/-- A session state in which both offers and the socket are present
(an inbound call about to be bridged). -/
def sampleState : SessionState :=
  { browserPc := false, browserStream := false, whatsappPc := false
    whatsappStream := false, browserOfferSdp := some "bo"
    whatsappOfferSdp := some "wo", browserSocket := true
    currentCallId := some "call1", isOutgoingCall := false
    outgoingCallState := initialOutgoingCallState }

/-- An oracle in which the provider track arrives and both REST calls
succeed; the engine answer carries one `a=setup:actpass` attribute. -/
def sampleEnv : BridgeEnv :=
  { browserAnswerSdp := "v=0 browser", waAnswerSdp := "v=0 a=setup:actpass m=audio"
    waTrackArrives := true, preAcceptOk := true, acceptOk := true }

/-- `sampleState` with the provider offer missing (guard fails). -/
def resetSampleState : SessionState :=
  { sampleState with whatsappOfferSdp := none }

/-- `sampleEnv` but the provider never sends its first audio track within
the 10-second window. -/
def timeoutEnv : BridgeEnv :=
  { sampleEnv with waTrackArrives := false }

/-- `sampleEnv` but the `pre_accept` REST call fails. -/
def preAcceptFailEnv : BridgeEnv :=
  { sampleEnv with preAcceptOk := false }

/-- A session state with an active outbound call in `ringing` status. -/
def sampleOutboundState : SessionState :=
  { browserPc := true, browserStream := true, whatsappPc := false
    whatsappStream := false, browserOfferSdp := some "held-offer"
    whatsappOfferSdp := none, browserSocket := true
    currentCallId := some "abc", isOutgoingCall := true
    outgoingCallState :=
      { phoneNumber := some "15551234567", callerName := some "Alice"
        callId := some "abc", status := "ringing" } }

/-- A `connect` webhook event carrying a provider SDP offer. -/
def pConnect : CallEvent :=
  { id := some "abc123", event := some "connect", sdp := some "wo"
    contactName := none, contactWaId := none }

/-- A `terminate` webhook event whose id matches `sampleOutboundState`. -/
def pTermMatching : CallEvent :=
  { id := some "abc", event := some "terminate", sdp := none
    contactName := none, contactWaId := none }

/-- A `reject` webhook event whose id matches `sampleOutboundState`. -/
def pRejectMatching : CallEvent :=
  { id := some "abc", event := some "reject", sdp := none
    contactName := none, contactWaId := none }

/-- A `terminate` webhook event whose id matches no outbound session. -/
def pTermOther : CallEvent :=
  { id := some "other-id", event := some "terminate", sdp := none
    contactName := none, contactWaId := none }

/-- A `reject` webhook event whose id matches no outbound session. -/
def pRejectOther : CallEvent :=
  { id := some "other-id", event := some "reject", sdp := none
    contactName := none, contactWaId := none }

/-! ### Frame lemmas about the bridge -/

/-- The bridge never touches the outbound-call record. -/
lemma bridge_outbound_frame (env : BridgeEnv) (s : SessionState) :
    outboundOf (initiateWebRTCBridge env s).1 = outboundOf s := by
  unfold initiateWebRTCBridge
  split_ifs <;> rfl

/-- The bridge never touches `currentCallId`. -/
lemma bridge_currentCallId_frame (env : BridgeEnv) (s : SessionState) :
    (initiateWebRTCBridge env s).1.currentCallId = s.currentCallId := by
  unfold initiateWebRTCBridge
  split_ifs <;> rfl

/-- The bridge never touches `isOutgoingCall`. -/
lemma bridge_isOutgoingCall_frame (env : BridgeEnv) (s : SessionState) :
    (initiateWebRTCBridge env s).1.isOutgoingCall = s.isOutgoingCall := by
  unfold initiateWebRTCBridge
  split_ifs <;> rfl

/-- The bridge never touches `outgoingCallState`. -/
lemma bridge_outgoingCallState_frame (env : BridgeEnv) (s : SessionState) :
    (initiateWebRTCBridge env s).1.outgoingCallState = s.outgoingCallState := by
  unfold initiateWebRTCBridge
  split_ifs <;> rfl

/-- Writing back the status an outgoing-call record already has leaves the
record unchanged. -/
lemma status_update_self (o : OutgoingCallState) (v : String) (h : o.status = v) :
    { o with status := v } = o := by
  cases o
  cases h
  rfl

/-- Any `pre_accept` action emitted by the bridge carries the session's
`currentCallId` and the rewritten provider answer SDP. -/
lemma bridge_preAccept_mem (env : BridgeEnv) (s : SessionState)
    (cid : Option String) (sdp : String)
    (h : Ev.apiPreAccept cid sdp ∈ (initiateWebRTCBridge env s).2.1) :
    cid = s.currentCallId ∧ sdp = rewriteSetupActive env.waAnswerSdp := by
  unfold initiateWebRTCBridge at h
  split_ifs at h <;> simp_all

/-- Any `accept` action emitted by the bridge carries the session's
`currentCallId` and the rewritten provider answer SDP, and can only occur
when the `pre_accept` call succeeded. -/
lemma bridge_accept_mem (env : BridgeEnv) (s : SessionState)
    (cid : Option String) (sdp : String)
    (h : Ev.apiAccept cid sdp ∈ (initiateWebRTCBridge env s).2.1) :
    env.preAcceptOk = true ∧ cid = s.currentCallId ∧
      sdp = rewriteSetupActive env.waAnswerSdp := by
  unfold initiateWebRTCBridge at h
  split_ifs at h <;> simp_all

/-! ### Webhook handler lemmas -/

/-- A webhook event that does not target the active outbound session leaves
the outbound record untouched. -/
lemma webhook_outbound_of_not_matching (env : BridgeEnv) (p : CallEvent)
    (s : SessionState) (h : ∀ i, p.id = some i → ¬ matchesOutbound s i) :
    outboundOf (handleWebhookPost env p s).1 = outboundOf s := by
  obtain ⟨pid, pev, psdp, pcn, pcw⟩ := p
  cases pid with
  | none => cases pev <;> rfl
  | some i =>
    have hnm : ¬ matchesOutbound s i := h i rfl
    cases pev with
    | none => rfl
    | some ev =>
      simp only [handleWebhookPost]
      split_ifs <;>
        first
          | exact absurd ‹_ ∧ _› hnm
          | exact bridge_outbound_frame env _
          | rfl

/-- Every webhook step respects the §4.4 outbound transition table, given
the reachability invariant that a recorded outbound call id implies status
`ringing` or `connected`. -/
lemma webhook_outbound_table (env : BridgeEnv) (p : CallEvent) (s : SessionState)
    (hinv : s.outgoingCallState.callId ≠ none →
      s.outgoingCallState.status = "ringing" ∨
      s.outgoingCallState.status = "connected") :
    webhookOutboundStepOk p s (handleWebhookPost env p s).1 := by
  obtain ⟨pid, pev, psdp, pcn, pcw⟩ := p
  cases pid with
  | none => cases pev <;> exact Or.inl rfl
  | some i =>
    cases pev with
    | none => exact Or.inl rfl
    | some ev =>
      simp only [handleWebhookPost]
      by_cases hc : ev = "connect"
      · rw [if_pos hc]
        by_cases hm : s.isOutgoingCall = true ∧ s.outgoingCallState.callId = some i
        · rw [if_pos hm]
          dsimp only
          have hcid : s.outgoingCallState.callId ≠ none := by
            rw [hm.2]; exact Option.some_ne_none i
          rcases hinv hcid with hring | hconn
          · refine Or.inr (Or.inl ⟨i, rfl, by rw [hc], hm, hring, ?_, ?_⟩)
            · rw [bridge_isOutgoingCall_frame]
              exact hm.1
            · rw [bridge_outgoingCallState_frame]
          · refine Or.inl ?_
            have heq : ({ s.outgoingCallState with status := "connected" }
                : OutgoingCallState) = s.outgoingCallState :=
              status_update_self _ _ hconn
            simp only [outboundOf, Prod.mk.injEq]
            refine ⟨?_, ?_⟩
            · rw [bridge_isOutgoingCall_frame]
            · rw [bridge_outgoingCallState_frame]
              exact heq
        · rw [if_neg hm]
          dsimp only
          exact Or.inl (bridge_outbound_frame env _)
      · rw [if_neg hc]
        by_cases ht : ev = "terminate"
        · rw [if_pos ht]
          by_cases hm : s.isOutgoingCall = true ∧ s.outgoingCallState.callId = some i
          · rw [if_pos hm]
            exact Or.inr (Or.inr ⟨i, rfl, Or.inl (by rw [ht]), hm, rfl, rfl⟩)
          · rw [if_neg hm]
            exact Or.inl rfl
        · rw [if_neg ht]
          by_cases hr : ev = "reject"
          · rw [if_pos hr]
            by_cases hm : s.isOutgoingCall = true ∧ s.outgoingCallState.callId = some i
            · rw [if_pos hm]
              exact Or.inr (Or.inr ⟨i, rfl, Or.inr (Or.inl (by rw [hr])), hm, rfl, rfl⟩)
            · rw [if_neg hm]
              exact Or.inl rfl
          · rw [if_neg hr]
            by_cases hto : ev = "timeout"
            · rw [if_pos hto]
              by_cases hm : s.isOutgoingCall = true ∧ s.outgoingCallState.callId = some i
              · rw [if_pos hm]
                exact Or.inr (Or.inr ⟨i, rfl, Or.inr (Or.inr (by rw [hto])), hm, rfl, rfl⟩)
              · rw [if_neg hm]
                exact Or.inl rfl
            · rw [if_neg hto]
              exact Or.inl rfl

/-- A whole sequence of webhook events none of which targets the active
outbound session leaves the outbound record untouched. -/
lemma webhook_seq_not_matching (env : BridgeEnv) (ps : List CallEvent) :
    ∀ s : SessionState,
      (∀ p ∈ ps, ∀ i, p.id = some i → ¬ matchesOutbound s i) →
      outboundOf (runWebhooks env ps s) = outboundOf s := by
  induction ps with
  | nil => intro s _; rfl
  | cons p rest ih =>
    intro s h
    have hstep : outboundOf (handleWebhookPost env p s).1 = outboundOf s :=
      webhook_outbound_of_not_matching env p s (h p (by simp))
    have hiso : (handleWebhookPost env p s).1.isOutgoingCall = s.isOutgoingCall :=
      congrArg Prod.fst hstep
    have hout : (handleWebhookPost env p s).1.outgoingCallState = s.outgoingCallState :=
      congrArg Prod.snd hstep
    have hrest : ∀ q ∈ rest, ∀ i, q.id = some i →
        ¬ matchesOutbound (handleWebhookPost env p s).1 i := by
      intro q hq i hqi hm
      exact h q (by simp [hq]) i hqi ⟨hiso.symm.trans hm.1, hout ▸ hm.2⟩
    calc outboundOf (runWebhooks env (p :: rest) s)
        = outboundOf (runWebhooks env rest (handleWebhookPost env p s).1) := rfl
      _ = outboundOf (handleWebhookPost env p s).1 := ih _ hrest
      _ = outboundOf s := hstep

/-! ### Claim theorems -/

/-- Claim C1 (amended): whenever the engine-produced provider answer SDP
contains the attribute line `a=setup:actpass`, the SDP carried by the
`pre_accept`/`accept` actions is always the rewritten answer, and that
rewritten answer differs from the engine answer by exactly one substitution
of the substring `setup:actpass` by `setup:active`, every other byte
unchanged.  (As originally stated — for *every* engine answer — the claim
fails when the answer contains no `a=setup:actpass`, in which case zero
bytes differ; see the counterexample.) -/
theorem c1_sdp_rewrite :
    (∀ (env : BridgeEnv) (s : SessionState) (cid : Option String) (sdp : String),
        (Ev.apiPreAccept cid sdp ∈ (initiateWebRTCBridge env s).2.1 ∨
         Ev.apiAccept cid sdp ∈ (initiateWebRTCBridge env s).2.1) →
        sdp = rewriteSetupActive env.waAnswerSdp) ∧
    (∀ a : String, (∃ p q, a.data = p ++ ("a=setup:actpass" : String).data ++ q) →
        ∃ p q, a.data = p ++ ("setup:actpass" : String).data ++ q ∧
          (rewriteSetupActive a).data = p ++ ("setup:active" : String).data ++ q) := by
  constructor
  · rintro env s cid sdp (h | h)
    · exact (bridge_preAccept_mem env s cid sdp h).2
    · exact (bridge_accept_mem env s cid sdp h).2.2
  · intro a hocc
    obtain ⟨p, q, h1, h2⟩ :=
      replaceFirst_eq_of_occurs ("a=setup:actpass" : String).data
        ("a=setup:active" : String).data (by decide) a.data hocc
    refine ⟨p ++ ("a=" : String).data, q, ?_, ?_⟩
    · have hsplit : ("a=setup:actpass" : String).data =
          ("a=" : String).data ++ ("setup:actpass" : String).data := by decide
      rw [h1, hsplit]
      simp [List.append_assoc]
    · have hsplit : ("a=setup:active" : String).data =
          ("a=" : String).data ++ ("setup:active" : String).data := by decide
      have hdata : (rewriteSetupActive a).data =
          replaceFirst ("a=setup:actpass" : String).data
            ("a=setup:active" : String).data a.data := rfl
      rw [hdata, h2, hsplit]
      simp [List.append_assoc]

/-- Witness for C1 at a concrete engine answer: the `pre_accept` action in
the bridge trace carries the rewritten SDP, and the rewrite is a single
`setup:actpass` → `setup:active` substitution. -/
theorem c1_sdp_rewrite_witness :
    ("v=0 a=setup:active m=audio" : String) = rewriteSetupActive sampleEnv.waAnswerSdp ∧
    ∃ p q, sampleEnv.waAnswerSdp.data = p ++ ("setup:actpass" : String).data ++ q ∧
      (rewriteSetupActive sampleEnv.waAnswerSdp).data =
        p ++ ("setup:active" : String).data ++ q :=
  ⟨c1_sdp_rewrite.1 sampleEnv sampleState (some "call1") "v=0 a=setup:active m=audio"
      (Or.inl (by decide)),
   c1_sdp_rewrite.2 sampleEnv.waAnswerSdp
      ⟨("v=0 " : String).data, (" m=audio" : String).data, by decide⟩⟩

/-- Counterexample to C1 as originally stated: an engine answer containing
no `a=setup:actpass` (e.g. the three-byte string `v=0`) passes through the
rewrite byte-for-byte unchanged, so the sent SDP differs from it by zero
substitutions, not exactly one. -/
theorem c1_counterexample :
    rewriteSetupActive "v=0" = "v=0" ∧
    ¬ ∃ p q, ("v=0" : String).data = p ++ ("setup:actpass" : String).data ++ q ∧
        (rewriteSetupActive "v=0").data = p ++ ("setup:active" : String).data ++ q := by
  constructor
  · decide
  · rintro ⟨p, q, h, -⟩
    have hl := congrArg List.length h
    have h3 : ("v=0" : String).data.length = 3 := by decide
    have h13 : ("setup:actpass" : String).data.length = 13 := by decide
    simp only [List.length_append, h3, h13] at hl
    omega

/-- Claim C3: when the browser offer, the provider offer, or the signaling
handle is missing, the bridge attempt is a complete no-op: it returns the
state unchanged, emits nothing, throws nothing, and iterating it any number
of times still leaves the state unchanged. -/
theorem c3_guard_noop :
    ∀ (env : BridgeEnv) (s : SessionState),
      (s.browserOfferSdp = none ∨ s.whatsappOfferSdp = none ∨ s.browserSocket = false) →
      initiateWebRTCBridge env s = (s, [], none) ∧
      ∀ n : Nat, (fun st => (initiateWebRTCBridge env st).1)^[n] s = s := by
  intro env s h
  have hfix : initiateWebRTCBridge env s = (s, [], none) := by
    unfold initiateWebRTCBridge
    rw [if_pos h]
  refine ⟨hfix, fun n => Function.iterate_fixed ?_ n⟩
  simp [hfix]

/-- Witness for C3: a state missing the provider offer is left untouched by
the bridge, even after three repeated calls. -/
theorem c3_guard_noop_witness :
    initiateWebRTCBridge sampleEnv resetSampleState = (resetSampleState, [], none) ∧
    (fun st => (initiateWebRTCBridge sampleEnv st).1)^[3] resetSampleState =
      resetSampleState :=
  ⟨(c3_guard_noop sampleEnv resetSampleState (Or.inr (Or.inl rfl))).1,
   (c3_guard_noop sampleEnv resetSampleState (Or.inr (Or.inl rfl))).2 3⟩

/-- Claim C7 (amended): whenever a bridge attempt passes the guard and the
provider track arrives, both offer fields are cleared — on the success path
*and* on the pre-accept failure path alike (lines 453-454 run
unconditionally after the if/else).  Only a track timeout, which throws
before those lines, leaves the offers holding their pre-attempt values.
(As originally stated — pre-accept failure leaves the offers in place — the
claim fails; see the counterexample.) -/
theorem c7_offer_clearing :
    ∀ (env : BridgeEnv) (s : SessionState),
      ¬ (s.browserOfferSdp = none ∨ s.whatsappOfferSdp = none ∨ s.browserSocket = false) →
      (env.waTrackArrives = true →
        (initiateWebRTCBridge env s).1.browserOfferSdp = none ∧
        (initiateWebRTCBridge env s).1.whatsappOfferSdp = none) ∧
      (env.waTrackArrives = false →
        (initiateWebRTCBridge env s).1.browserOfferSdp = s.browserOfferSdp ∧
        (initiateWebRTCBridge env s).1.whatsappOfferSdp = s.whatsappOfferSdp) := by
  intro env s h
  unfold initiateWebRTCBridge
  rw [if_neg h]
  by_cases ht : env.waTrackArrives = false
  · simp [ht]
  · simp [ht]

/-- Witness for C7: with the provider track arriving and `pre_accept`
succeeding, the offers are cleared; with the track timing out they are
kept. -/
theorem c7_offer_clearing_witness :
    ((initiateWebRTCBridge sampleEnv sampleState).1.browserOfferSdp = none ∧
     (initiateWebRTCBridge sampleEnv sampleState).1.whatsappOfferSdp = none) ∧
    ((initiateWebRTCBridge timeoutEnv sampleState).1.browserOfferSdp = some "bo" ∧
     (initiateWebRTCBridge timeoutEnv sampleState).1.whatsappOfferSdp = some "wo") :=
  ⟨(c7_offer_clearing sampleEnv sampleState (by decide)).1 rfl,
   (c7_offer_clearing timeoutEnv sampleState (by decide)).2 rfl⟩

/-- Counterexample to C7 as originally stated: with a failing `pre_accept`
(`preAcceptOk = false`) the attempt is abandoned before `accept`, yet both
offer fields are cleared anyway — they do not retain their pre-attempt
values `some "bo"` / `some "wo"`. -/
theorem c7_counterexample :
    preAcceptFailEnv.preAcceptOk = false ∧
    sampleState.browserOfferSdp = some "bo" ∧
    sampleState.whatsappOfferSdp = some "wo" ∧
    (initiateWebRTCBridge preAcceptFailEnv sampleState).1.browserOfferSdp = none ∧
    (initiateWebRTCBridge preAcceptFailEnv sampleState).1.whatsappOfferSdp = none ∧
    Ev.apiAccept (some "call1")
        (rewriteSetupActive preAcceptFailEnv.waAnswerSdp) ∉
      (initiateWebRTCBridge preAcceptFailEnv sampleState).2.1 := by
  decide

/-- Claim C2: in every bridge attempt, an `accept` action occurs in the
trace only when the `pre_accept` call succeeded; when it occurs, the trace
is exactly the browser answer, then `pre_accept` with the same call id and
SDP, then the fixed 1000 ms delay, then `accept`; and `start-browser-timer`
is emitted only when the `accept` call also succeeded. -/
theorem c2_handshake_order :
    ∀ (env : BridgeEnv) (s : SessionState) (cid : Option String) (sdp : String),
      (Ev.apiAccept cid sdp ∈ (initiateWebRTCBridge env s).2.1 →
        env.preAcceptOk = true ∧ cid = s.currentCallId ∧
        sdp = rewriteSetupActive env.waAnswerSdp ∧
        (initiateWebRTCBridge env s).2.1 =
          Ev.emitBrowserAnswer env.browserAnswerSdp :: Ev.apiPreAccept cid sdp ::
            Ev.delayMs 1000 :: Ev.apiAccept cid sdp ::
            (if env.acceptOk = true ∧ s.browserSocket = true then
              [Ev.emitStartBrowserTimer] else [])) ∧
      (Ev.emitStartBrowserTimer ∈ (initiateWebRTCBridge env s).2.1 →
        env.preAcceptOk = true ∧ env.acceptOk = true) := by
  intro env s cid sdp
  constructor
  · intro h
    obtain ⟨hp, hc, hs⟩ := bridge_accept_mem env s cid sdp h
    refine ⟨hp, hc, hs, ?_⟩
    subst hc hs
    unfold initiateWebRTCBridge at h ⊢
    by_cases hg : s.browserOfferSdp = none ∨ s.whatsappOfferSdp = none ∨
        s.browserSocket = false
    · rw [if_pos hg] at h
      simp at h
    · rw [if_neg hg] at h ⊢
      by_cases htr : env.waTrackArrives = false
      · rw [if_pos htr] at h
        simp at h
      · rw [if_neg htr] at h ⊢
        rw [if_pos hp]
  · intro h
    unfold initiateWebRTCBridge at h
    split_ifs at h <;> simp_all

/-- Witness for C2 at a concrete session and oracle where everything
succeeds: the trace is exactly browser answer, `pre_accept`, 1000 ms delay,
`accept`, `start-browser-timer`. -/
theorem c2_handshake_order_witness :
    (sampleEnv.preAcceptOk = true ∧
      (some "call1" : Option String) = sampleState.currentCallId ∧
      rewriteSetupActive sampleEnv.waAnswerSdp = rewriteSetupActive sampleEnv.waAnswerSdp ∧
      (initiateWebRTCBridge sampleEnv sampleState).2.1 =
        Ev.emitBrowserAnswer sampleEnv.browserAnswerSdp ::
          Ev.apiPreAccept (some "call1") (rewriteSetupActive sampleEnv.waAnswerSdp) ::
          Ev.delayMs 1000 ::
          Ev.apiAccept (some "call1") (rewriteSetupActive sampleEnv.waAnswerSdp) ::
          (if sampleEnv.acceptOk = true ∧ sampleState.browserSocket = true then
            [Ev.emitStartBrowserTimer] else [])) ∧
    (sampleEnv.preAcceptOk = true ∧ sampleEnv.acceptOk = true) :=
  ⟨(c2_handshake_order sampleEnv sampleState (some "call1")
        (rewriteSetupActive sampleEnv.waAnswerSdp)).1 (by decide),
   (c2_handshake_order sampleEnv sampleState (some "call1")
        (rewriteSetupActive sampleEnv.waAnswerSdp)).2 (by decide)⟩

/-- Claim C4: (a) a webhook event not targeting the active outbound session
leaves `isOutgoingCall` and `outgoingCallState` unchanged; (b) every
webhook step conforms to the §4.4 outbound transition table (under the
reachability invariant that a recorded call id implies status
`ringing`/`connected`); (c) a whole sequence of non-matching
`connect`/`terminate`/`reject`/`timeout` events leaves the outbound record
unchanged. -/
theorem c4_outbound_state_machine :
    (∀ (env : BridgeEnv) (p : CallEvent) (s : SessionState),
        (∀ i, p.id = some i → ¬ matchesOutbound s i) →
        outboundOf (handleWebhookPost env p s).1 = outboundOf s) ∧
    (∀ (env : BridgeEnv) (p : CallEvent) (s : SessionState),
        (s.outgoingCallState.callId ≠ none →
          s.outgoingCallState.status = "ringing" ∨
          s.outgoingCallState.status = "connected") →
        webhookOutboundStepOk p s (handleWebhookPost env p s).1) ∧
    (∀ (env : BridgeEnv) (ps : List CallEvent) (s : SessionState),
        (∀ p ∈ ps, ∀ i, p.id = some i → ¬ matchesOutbound s i) →
        outboundOf (runWebhooks env ps s) = outboundOf s) :=
  ⟨webhook_outbound_of_not_matching, webhook_outbound_table,
   fun env ps s h => webhook_seq_not_matching env ps s h⟩

/-- Witness for C4: a non-matching `terminate`, a matching `terminate`, and
a two-event non-matching sequence against an active outbound session. -/
theorem c4_outbound_state_machine_witness :
    outboundOf (handleWebhookPost sampleEnv pTermOther sampleOutboundState).1 =
      outboundOf sampleOutboundState ∧
    webhookOutboundStepOk pTermMatching sampleOutboundState
      (handleWebhookPost sampleEnv pTermMatching sampleOutboundState).1 ∧
    outboundOf (runWebhooks sampleEnv [pTermOther, pRejectOther] sampleOutboundState) =
      outboundOf sampleOutboundState :=
  ⟨c4_outbound_state_machine.1 sampleEnv pTermOther sampleOutboundState
      (by intro i hi; simp [pTermOther] at hi; subst hi; decide),
   c4_outbound_state_machine.2.1 sampleEnv pTermMatching sampleOutboundState (by decide),
   c4_outbound_state_machine.2.2 sampleEnv [pTermOther, pRejectOther] sampleOutboundState
      (by
        intro p hp i hi
        rcases List.mem_cons.mp hp with rfl | hp
        · simp [pTermOther] at hi; subst hi; decide
        · rcases List.mem_cons.mp hp with rfl | hp
          · simp [pRejectOther] at hi; subst hi; decide
          · simp at hp)⟩

/-- Claim C5 (amended): a matching `terminate`/`reject`/`timeout` webhook
event resets the outgoing-call record — `isOutgoingCall` plus all four
`outgoingCallState` fields — together in one step, but that is the *only*
reset it performs: `browserOfferSdp`, `whatsappOfferSdp`, the peer and
stream handles and the socket binding keep their pre-event values, and
`currentCallId` is overwritten with the event's id rather than cleared.
(As originally stated — all session fields reset together — the claim
fails; see the counterexample.) -/
theorem c5_outbound_reset_scope :
    ∀ (env : BridgeEnv) (p : CallEvent) (s : SessionState) (i : String),
      p.id = some i →
      (p.event = some "terminate" ∨ p.event = some "reject" ∨
        p.event = some "timeout") →
      matchesOutbound s i →
      (handleWebhookPost env p s).1 =
        { s with
            currentCallId := some i
            isOutgoingCall := false
            outgoingCallState := initialOutgoingCallState } := by
  intro env p s i hid hev hm
  obtain ⟨pid, pev, psdp, pcn, pcw⟩ := p
  simp only at hid hev
  subst hid
  rcases hev with h | h | h <;> subst h <;> simp only [handleWebhookPost]
  · rw [if_neg (by decide : ¬ (("terminate" : String) = "connect")), if_pos trivial,
      if_pos (show s.isOutgoingCall = true ∧ s.outgoingCallState.callId = some i from hm)]
    rfl
  · rw [if_neg (by decide : ¬ (("reject" : String) = "connect")),
      if_neg (by decide : ¬ (("reject" : String) = "terminate")), if_pos trivial,
      if_pos (show s.isOutgoingCall = true ∧ s.outgoingCallState.callId = some i from hm)]
    rfl
  · rw [if_neg (by decide : ¬ (("timeout" : String) = "connect")),
      if_neg (by decide : ¬ (("timeout" : String) = "terminate")),
      if_neg (by decide : ¬ (("timeout" : String) = "reject")), if_pos trivial,
      if_pos (show s.isOutgoingCall = true ∧ s.outgoingCallState.callId = some i from hm)]
    rfl

/-- Witness for C5: a matching `reject` resets exactly the outbound record
and overwrites `currentCallId`, leaving every other field in place. -/
theorem c5_outbound_reset_scope_witness :
    (handleWebhookPost sampleEnv pRejectMatching sampleOutboundState).1 =
      { sampleOutboundState with
          currentCallId := some "abc"
          isOutgoingCall := false
          outgoingCallState := initialOutgoingCallState } :=
  c5_outbound_reset_scope sampleEnv pRejectMatching sampleOutboundState "abc"
    rfl (Or.inr (Or.inl rfl)) (by decide)

/-- Counterexample to C5 as originally stated: on a matching `terminate`
the outbound record is reset while `browserOfferSdp` still holds
`some "held-offer"` and the browser peer handle is still present — session
fields are *not* all reset together. -/
theorem c5_counterexample :
    (handleWebhookPost sampleEnv pTermMatching sampleOutboundState).1.isOutgoingCall
        = false ∧
    (handleWebhookPost sampleEnv pTermMatching sampleOutboundState).1.outgoingCallState
        = initialOutgoingCallState ∧
    sampleOutboundState.browserOfferSdp = some "held-offer" ∧
    (handleWebhookPost sampleEnv pTermMatching sampleOutboundState).1.browserOfferSdp
        = some "held-offer" ∧
    sampleOutboundState.browserPc = true ∧
    (handleWebhookPost sampleEnv pTermMatching sampleOutboundState).1.browserPc
        = true := by
  decide

/-- Claim C6 (amended): all four provider operations treat
`response.data.success === true` as the sole success signal and never
throw (each is a total function into a result value).  But only
`initiateWhatsAppCall` normalizes every failure to
`{success:false, error:<message>}`; `answerCallToWhatsApp` returns a bare
boolean, and `rejectCall`/`terminateCall` return the raw response body on
any HTTP-success response, normalizing only thrown exceptions.  (As
originally stated the claim fails; see the counterexample.) -/
theorem c6_provider_client_results :
    (∀ (pn sdp : String) (now : Nat) (r : HttpOutcome),
        (initiateWhatsAppCall pn sdp now r).success = true ↔
        ∃ d, r = HttpOutcome.ok d ∧ d.success = some true) ∧
    (∀ (pn sdp : String) (now : Nat) (r : HttpOutcome),
        (initiateWhatsAppCall pn sdp now r).success = false →
        ∃ m, (initiateWhatsAppCall pn sdp now r).error = some m) ∧
    (∀ (cid : Option String) (sdp action : String) (r : HttpOutcome),
        answerCallToWhatsApp cid sdp action r = true ↔
        ∃ d, r = HttpOutcome.ok d ∧ d.success = some true) ∧
    (∀ (cid : Option String) (d : ApiData),
        rejectCall cid (HttpOutcome.ok d) = ProviderCallResult.rawData d) ∧
    (∀ (cid : Option String) (m : String) (rd : Option ApiData),
        rejectCall cid (HttpOutcome.exn m rd) = ProviderCallResult.normalizedErr m) ∧
    (∀ (cid : Option String) (d : ApiData),
        terminateCall cid (HttpOutcome.ok d) = ProviderCallResult.rawData d) ∧
    (∀ (cid : Option String) (m : String) (rd : Option ApiData),
        terminateCall cid (HttpOutcome.exn m rd) = ProviderCallResult.normalizedErr m) := by
  refine ⟨?_, ?_, ?_, fun _ _ => rfl, fun _ _ _ => rfl, fun _ _ => rfl, fun _ _ _ => rfl⟩
  · intro pn sdp now r
    cases r with
    | ok d =>
      by_cases h : d.success = some true <;>
        simp [initiateWhatsAppCall, h]
    | exn m rd => simp [initiateWhatsAppCall]
  · intro pn sdp now r h
    cases r with
    | ok d =>
      by_cases hs : d.success = some true
      · simp [initiateWhatsAppCall, hs] at h
      · simp [initiateWhatsAppCall, hs]
    | exn m rd => simp [initiateWhatsAppCall]
  · intro cid sdp action r
    cases r with
    | ok d =>
      by_cases h : d.success = some true <;>
        simp [answerCallToWhatsApp, h]
    | exn m rd => simp [answerCallToWhatsApp]

/-- Witness for C6: an exception during `initiateCall` is normalized with
an error message, and `answerCallToWhatsApp` reports success exactly on a
`success:true` body. -/
theorem c6_provider_client_results_witness :
    (∃ m, (initiateWhatsAppCall "15551234567" "offer" 42
        (HttpOutcome.exn "boom" none)).error = some m) ∧
    answerCallToWhatsApp (some "abc") "ans" "pre_accept"
        (HttpOutcome.ok { success := some true, call_id := none, errObjMessage := none })
      = true :=
  ⟨c6_provider_client_results.2.1 "15551234567" "offer" 42
      (HttpOutcome.exn "boom" none) (by decide),
   (c6_provider_client_results.2.2.1 (some "abc") "ans" "pre_accept"
        (HttpOutcome.ok { success := some true, call_id := none, errObjMessage := none })).mpr
      ⟨{ success := some true, call_id := none, errObjMessage := none }, rfl, rfl⟩⟩

/-- Counterexample to C6 as originally stated: `rejectCall` receiving an
HTTP-success response whose body is `{success:false}` returns that body
raw — it is not normalized into a `{success:false, error:<message>}`
result. -/
theorem c6_counterexample :
    rejectCall (some "abc")
        (HttpOutcome.ok { success := some false, call_id := none, errObjMessage := none })
      = ProviderCallResult.rawData
          { success := some false, call_id := none, errObjMessage := none } ∧
    ProviderCallResult.isNormalizedErr
        (rejectCall (some "abc")
          (HttpOutcome.ok { success := some false, call_id := none, errObjMessage := none }))
      = false := by
  decide

/-- Claim C8, at the failing input: a `connect` webhook whose bridge
attempt hits the 10-second provider-track timeout. The thrown rejection
escapes to the webhook handler's catch: the transport is answered 500, the
browser receives only the `call-is-coming` notification — no failure event
of any kind — and the offer fields are left populated rather than reset. -/
theorem c8_track_timeout_unreported :
    (handleWebhookPost timeoutEnv pConnect sampleState).2.2 = 500 ∧
    (handleWebhookPost timeoutEnv pConnect sampleState).2.1 =
      [Ev.emitCallIsComing "abc123" "Unknown" "Unknown"] ∧
    (handleWebhookPost timeoutEnv pConnect sampleState).1.browserOfferSdp = some "bo" ∧
    (handleWebhookPost timeoutEnv pConnect sampleState).1.whatsappOfferSdp = some "wo" ∧
    Ev.emitStartBrowserTimer ∉ (handleWebhookPost timeoutEnv pConnect sampleState).2.1 := by
  decide

/-- Claim C9: the `reject-outbound-call` handler resets the outgoing-call
record *before* building the `outgoing-call-rejected` payload from it, so
the event it emits always carries `callId: null` and `phoneNumber: null`. -/
theorem c9_rejected_payload_nulls :
    ∀ s : SessionState,
      Ev.emitOutgoingCallRejected none none ∈ (onRejectOutboundCall s).2 ∧
      (∀ c ph, Ev.emitOutgoingCallRejected c ph ∈ (onRejectOutboundCall s).2 →
        c = none ∧ ph = none) := by
  intro s
  unfold onRejectOutboundCall
  cases h : s.outgoingCallState.callId <;>
    simp [h, resetOutgoingCallState, initialOutgoingCallState]

/-- Witness for C9: even with an outbound call id and phone number
recorded, the emitted payload carries nulls. -/
theorem c9_rejected_payload_nulls_witness :
    Ev.emitOutgoingCallRejected none none ∈ (onRejectOutboundCall sampleOutboundState).2 ∧
    ((none : Option String) = none ∧ (none : Option String) = none) :=
  ⟨(c9_rejected_payload_nulls sampleOutboundState).1,
   (c9_rejected_payload_nulls sampleOutboundState).2 none none (by decide)⟩

/-- Claim C10: every webhook event carrying both an id and an event type —
matching or not, recognized or not — overwrites `currentCallId` with that
id, and every `pre_accept`/`accept` action emitted while handling it uses
exactly that id. -/
theorem c10_currentCallId_overwritten :
    ∀ (env : BridgeEnv) (p : CallEvent) (s : SessionState) (i e : String),
      p.id = some i → p.event = some e →
      (handleWebhookPost env p s).1.currentCallId = some i ∧
      (∀ cid sdp, Ev.apiPreAccept cid sdp ∈ (handleWebhookPost env p s).2.1 →
        cid = some i) ∧
      (∀ cid sdp, Ev.apiAccept cid sdp ∈ (handleWebhookPost env p s).2.1 →
        cid = some i) := by
  intro env p s i e hid hev
  obtain ⟨pid, pev, psdp, pcn, pcw⟩ := p
  simp only at hid hev
  subst hid hev
  simp only [handleWebhookPost]
  split_ifs <;>
    refine ⟨?_, fun cid sdp hmem => ?_, fun cid sdp hmem => ?_⟩ <;>
    first
      | exact bridge_currentCallId_frame env _
      | rfl
      | (rw [List.mem_cons] at hmem
         rcases hmem with h | h
         · simp at h
         · first
             | exact (bridge_preAccept_mem env _ cid sdp h).1
             | exact (bridge_accept_mem env _ cid sdp h).2.1)
      | simp at hmem

/-- Witness for C10: a `terminate` event whose id does not match the
active outbound session still overwrites `currentCallId`. -/
theorem c10_currentCallId_overwritten_witness :
    (handleWebhookPost sampleEnv pTermOther sampleOutboundState).1.currentCallId =
      some "other-id" :=
  (c10_currentCallId_overwritten sampleEnv pTermOther sampleOutboundState
      "other-id" "terminate" rfl rfl).1

end WpCall
